import Mathlib

/-
Verification development for the DRON_FPV_GAME repository.

The physics core (class Drone, file physics.js) and the input normalizer
(class InputHandler, file input.js) are shallowly embedded over an
arbitrary linear ordered field. Transcendental operations that the
JavaScript code obtains from Math / THREE (cosine and sine for the
axis-angle quaternions, Euclidean length of a vector, and the YXZ Euler
decomposition used by LEVEL mode) are abstracted into a record of
operations, so every theorem quantifies over all interpretations of
those operations; where a property genuinely needs the Pythagorean
identity it is taken as an explicit hypothesis. The random number
generator and the ray-casting of collidable geometry are passed in as
explicit parameters, matching the specification contract for
CollidableGeometry (castRay returns the distance to the nearest
intersection, or none).
-/

namespace DroneFPV

variable {α : Type} [LinearOrderedField α]

/-- Flight mode of the drone: ACRO (rate control) or LEVEL (angle control). -/
inductive Mode where
  | ACRO
  | LEVEL
deriving DecidableEq

/-- Three-component vector, mirroring THREE.Vector3 restricted to the
operations the physics code uses. -/
structure Vec3 (α : Type) where
  x : α
  y : α
  z : α
deriving DecidableEq

instance : Add (Vec3 α) := ⟨fun a b => ⟨a.x + b.x, a.y + b.y, a.z + b.z⟩⟩

/-- Componentwise scaling, mirroring Vector3.multiplyScalar. -/
def Vec3.scale (v : Vec3 α) (k : α) : Vec3 α := ⟨v.x * k, v.y * k, v.z * k⟩

/-- Componentwise linear interpolation with UNCLAMPED factor, exactly as
THREE.Vector3.lerp: each component becomes a + (b - a) * t. -/
def lerpV (a b : Vec3 α) (t : α) : Vec3 α :=
  ⟨a.x + (b.x - a.x) * t, a.y + (b.y - a.y) * t, a.z + (b.z - a.z) * t⟩

/-- Quaternion with scalar part w, mirroring THREE.Quaternion. -/
structure Quat (α : Type) where
  w : α
  x : α
  y : α
  z : α
deriving DecidableEq

/-- Hamilton product, exactly the formula of
THREE.Quaternion.multiplyQuaternions(a, b). -/
def qmul (a b : Quat α) : Quat α :=
  ⟨a.w * b.w - a.x * b.x - a.y * b.y - a.z * b.z,
   a.x * b.w + a.w * b.x + a.y * b.z - a.z * b.y,
   a.y * b.w + a.w * b.y + a.z * b.x - a.x * b.z,
   a.z * b.w + a.w * b.z + a.x * b.y - a.y * b.x⟩

/-- Squared Euclidean norm of a quaternion. -/
def quatNormSq (q : Quat α) : α := q.w * q.w + q.x * q.x + q.y * q.y + q.z * q.z

/-- Rotation of a vector by a quaternion, the formula of
THREE.Vector3.applyQuaternion (t = 2 q_v x v; v + w t + q_v x t). -/
def applyQuat (q : Quat α) (v : Vec3 α) : Vec3 α :=
  let tx := 2 * (q.y * v.z - q.z * v.y)
  let ty := 2 * (q.z * v.x - q.x * v.z)
  let tz := 2 * (q.x * v.y - q.y * v.x)
  ⟨v.x + q.w * tx + q.y * tz - q.z * ty,
   v.y + q.w * ty + q.z * tx - q.x * tz,
   v.z + q.w * tz + q.x * ty - q.y * tx⟩

/-- Abstract interpretations of the transcendental operations the
JavaScript code takes from Math / THREE: cosine and sine (used by
Quaternion.setFromAxisAngle), Euclidean length of a vector
(Vector3.length, a square root), and the pitch (x) and roll (z)
components of the YXZ Euler decomposition of a quaternion
(Euler.setFromQuaternion with order YXZ, used only by LEVEL mode).
They are left abstract because they are transcendental; theorems
quantify over all interpretations and assume the Pythagorean identity
explicitly where it is needed. -/
structure MathOps (α : Type) where
  cos : α → α
  sin : α → α
  len : Vec3 α → α
  eulerX : Quat α → α
  eulerZ : Quat α → α

/-- Axis-angle quaternion about the body X axis,
THREE.Quaternion.setFromAxisAngle((1,0,0), angle). -/
def axisQuatX (ops : MathOps α) (angle : α) : Quat α :=
  ⟨ops.cos (angle / 2), ops.sin (angle / 2), 0, 0⟩

/-- Axis-angle quaternion about the body Y axis. -/
def axisQuatY (ops : MathOps α) (angle : α) : Quat α :=
  ⟨ops.cos (angle / 2), 0, ops.sin (angle / 2), 0⟩

/-- Axis-angle quaternion about the body Z axis. -/
def axisQuatZ (ops : MathOps α) (angle : α) : Quat α :=
  ⟨ops.cos (angle / 2), 0, 0, ops.sin (angle / 2)⟩

/-- Sequential body-axis rotations of one frame, exactly the order of the
source: rotateX(av.x dt) then rotateY(av.y dt) then rotateZ(av.z dt),
each one Object3D.rotateOnAxis, i.e. a right-multiplication of the
current quaternion by the axis-angle quaternion. -/
def rotateQuat (ops : MathOps α) (q : Quat α) (av : Vec3 α) (dt : α) : Quat α :=
  qmul (qmul (qmul q (axisQuatX ops (av.x * dt)))
      (axisQuatY ops (av.y * dt)))
    (axisQuatZ ops (av.z * dt))

/-- Normalized control input record produced by the input handler and
consumed by Drone.update. -/
structure ControlInput (α : Type) where
  thrust : α
  yaw : α
  pitch : α
  roll : α
  toggleMode : Bool
deriving DecidableEq

/-- Immutable configuration recorded by the Drone constructor. -/
structure Config (α : Type) where
  maxThrust : α
  mass : α
  drag : α
  angularDrag : α
  acroRate : α
  angleRate : α
  levelStrength : α
  gravity : α
  collisionRadius : α

/-- The constant values assigned in the Drone constructor. -/
def defaultConfig : Config α :=
  { maxThrust := 30
    mass := 1 / 2
    drag := 1 / 2
    angularDrag := 6
    acroRate := 8
    angleRate := 78 / 100
    levelStrength := 15
    gravity := -(981 / 100)
    collisionRadius := 1 / 2 }

/-- Mutable physical state of the drone: mesh position and quaternion,
linear velocity, angular velocity and flight mode. -/
structure DroneState (α : Type) where
  position : Vec3 α
  quaternion : Quat α
  velocity : Vec3 α
  angularVelocity : Vec3 α
  mode : Mode
deriving DecidableEq

/-- Opaque collidable geometry handle: given a ray origin and direction,
the distance to the nearest intersection with this object, or none. -/
def Collidable (α : Type) : Type := Vec3 α → Vec3 α → Option α

/-- Distance of the nearest intersection over the whole collidable list,
modelling Raycaster.intersectObjects(collidables, true) followed by
taking the first (closest) entry. -/
def nearestHit (cs : List (Collidable α)) (origin dir : Vec3 α) : Option α :=
  (cs.filterMap (fun c => c origin dir)).foldr
    (fun d acc => match acc with
      | none => some d
      | some e => some (min d e))
    none

/-- Vector normalization as THREE.Vector3.normalize: divide by the length,
or by 1 when the length is zero. -/
def normalize (ops : MathOps α) (v : Vec3 α) : Vec3 α :=
  v.scale (1 / (if ops.len v = 0 then 1 else ops.len v))

/-- Step 1 of Drone.update: derivation of the new angular velocity from
the mode. ACRO lerps the current angular velocity toward the stick
target scaled by acroRate with factor dt * 10; LEVEL assigns pitch and
roll rates proportionally to the angle error and assigns the yaw rate
directly as input.yaw * acroRate. -/
def derivedAngularVelocity (ops : MathOps α) (cfg : Config α) (dt : α)
    (input : ControlInput α) (s : DroneState α) : Vec3 α :=
  match s.mode with
  | Mode.ACRO =>
      lerpV s.angularVelocity
        ⟨input.pitch * cfg.acroRate, input.yaw * cfg.acroRate,
         input.roll * cfg.acroRate⟩
        (dt * 10)
  | Mode.LEVEL =>
      let targetPitch := input.pitch * cfg.angleRate
      let targetRoll := input.roll * cfg.angleRate
      let pitchError := targetPitch - ops.eulerX s.quaternion
      let rollError := targetRoll - ops.eulerZ s.quaternion
      ⟨pitchError * cfg.levelStrength, input.yaw * cfg.acroRate,
       rollError * cfg.levelStrength⟩

/-- Step 2 of Drone.update: the orientation after this frame's three
sequential body-axis rotations. -/
def newQuaternion (ops : MathOps α) (cfg : Config α) (dt : α)
    (input : ControlInput α) (s : DroneState α) : Quat α :=
  rotateQuat ops s.quaternion (derivedAngularVelocity ops cfg dt input s) dt

/-- Steps 3 to 5 of Drone.update: thrust along the rotated body-up vector,
gravity, linear drag, and the forward Euler velocity step. -/
def velocityAfterForces (ops : MathOps α) (cfg : Config α) (dt : α)
    (input : ControlInput α) (s : DroneState α) : Vec3 α :=
  let q3 := newQuaternion ops cfg dt input s
  let thrustForce := (applyQuat q3 ⟨0, 1, 0⟩).scale (input.thrust * cfg.maxThrust)
  let accel := (⟨0, cfg.gravity, 0⟩ : Vec3 α) + thrustForce + s.velocity.scale (-cfg.drag)
  s.velocity + accel.scale dt

/-- Step 6 of Drone.update: lookahead collision check and crash response.
Entered only when the collidable list is nonempty and the speed exceeds
0.1; on a hit closer than max(collisionRadius, speed * dt * 2) the
velocity is scaled by -0.5 and the angular velocity is reseeded from
the three uniform draws r via (r - 0.5) * 10. -/
def collisionResponse (ops : MathOps α) (cfg : Config α) (dt : α)
    (cs : List (Collidable α)) (rnd : Vec3 α) (pos v av : Vec3 α) :
    Vec3 α × Vec3 α :=
  if 0 < cs.length ∧ 1 / 10 < ops.len v then
    match nearestHit cs pos (normalize ops v) with
    | some d =>
        if d < max cfg.collisionRadius (ops.len v * dt * 2) then
          (v.scale (-(1 / 2)),
           ⟨(rnd.x - 1 / 2) * 10, (rnd.y - 1 / 2) * 10, (rnd.z - 1 / 2) * 10⟩)
        else (v, av)
    | none => (v, av)
  else (v, av)

/-- The velocity and angular velocity after the collision stage. -/
def postCollision (ops : MathOps α) (cfg : Config α) (dt : α)
    (input : ControlInput α) (cs : List (Collidable α)) (rnd : Vec3 α)
    (s : DroneState α) : Vec3 α × Vec3 α :=
  collisionResponse ops cfg dt cs rnd s.position
    (velocityAfterForces ops cfg dt input s)
    (derivedAngularVelocity ops cfg dt input s)

/-- Step 7 of Drone.update: forward Euler position step, before the ground
clamp. -/
def preClampPosition (ops : MathOps α) (cfg : Config α) (dt : α)
    (input : ControlInput α) (cs : List (Collidable α)) (rnd : Vec3 α)
    (s : DroneState α) : Vec3 α :=
  s.position + (postCollision ops cfg dt input cs rnd s).1.scale dt

/-- Step 8 of Drone.update: ground clamp at height 0.2. When it fires, the
height is set to 0.2, the vertical velocity becomes max(0, -0.5 vy) and
the horizontal components are scaled by 0.8. -/
def groundClamp (p v : Vec3 α) : Vec3 α × Vec3 α :=
  if p.y < 1 / 5 then
    (⟨p.x, 1 / 5, p.z⟩,
     ⟨v.x * (4 / 5), max 0 (v.y * (-(1 / 2))), v.z * (4 / 5)⟩)
  else (p, v)

/-- One call of Drone.update(dt, input, collidables), with the three
Math.random() draws of the crash branch supplied in rnd. -/
def update (ops : MathOps α) (cfg : Config α) (dt : α) (input : ControlInput α)
    (cs : List (Collidable α)) (rnd : Vec3 α) (s : DroneState α) : DroneState α :=
  let cr := postCollision ops cfg dt input cs rnd s
  let gc := groundClamp (preClampPosition ops cfg dt input cs rnd s) cr.1
  { position := gc.1
    quaternion := newQuaternion ops cfg dt input s
    velocity := gc.2
    angularVelocity := cr.2
    mode := s.mode }

/-- Key codes consulted by InputHandler (any other code is modelled by
the catch-all constructor, since the keys map stores arbitrary codes
but getState only ever reads the listed ones). -/
inductive KeyCode where
  | Space
  | ShiftLeft
  | KeyW
  | KeyS
  | KeyA
  | KeyD
  | KeyQ
  | KeyE
  | KeyM
  | otherKey
deriving DecidableEq

/-- Snapshot of a connected gamepad as read from navigator.getGamepads():
the axis array and whether button 0 is pressed. -/
structure Gamepad (α : Type) where
  axes : Nat → α
  button0 : Bool

/-- Internal state of InputHandler: the keys map written by the key
events, the index of the connected gamepad (none when disconnected) and
the pending mode-toggle flag. -/
structure Handler (α : Type) where
  keys : KeyCode → Bool
  gamepadIndex : Option Nat
  toggleMode : Bool

/-- Key-down event handler: records the key as held and raises the
toggle flag when the key is KeyM. -/
def onKeyDown (h : Handler α) (code : KeyCode) : Handler α :=
  { h with
    keys := fun c => if c = code then true else h.keys c
    toggleMode := if code = KeyCode.KeyM then true else h.toggleMode }

/-- Key-up event handler: records the key as released and clears the
toggle flag when the key is KeyM. -/
def onKeyUp (h : Handler α) (code : KeyCode) : Handler α :=
  { h with
    keys := fun c => if c = code then false else h.keys c
    toggleMode := if code = KeyCode.KeyM then false else h.toggleMode }

/-- Gamepad-connected event handler: records the gamepad index. -/
def onGamepadConnected (h : Handler α) (idx : Nat) : Handler α :=
  { h with gamepadIndex := some idx }

/-- Gamepad-disconnected event handler: clears the index when it matches. -/
def onGamepadDisconnected (h : Handler α) (idx : Nat) : Handler α :=
  if h.gamepadIndex = some idx then { h with gamepadIndex := none } else h

/-- Discrete thrust mapping of the keyboard branch: 0, overwritten to 1
by Space, overwritten to 0 by ShiftLeft (later assignment wins). -/
def discreteThrust (keys : KeyCode → Bool) : α :=
  let t1 : α := if keys KeyCode.Space then 1 else 0
  if keys KeyCode.ShiftLeft then 0 else t1

/-- Discrete pitch mapping: -1 for KeyW, then 1 for KeyS (later wins). -/
def discretePitch (keys : KeyCode → Bool) : α :=
  let p1 : α := if keys KeyCode.KeyW then -1 else 0
  if keys KeyCode.KeyS then 1 else p1

/-- Discrete roll mapping: -1 for KeyA, then 1 for KeyD (later wins). -/
def discreteRoll (keys : KeyCode → Bool) : α :=
  let r1 : α := if keys KeyCode.KeyA then -1 else 0
  if keys KeyCode.KeyD then 1 else r1

/-- Discrete yaw mapping: 1 for KeyQ, then -1 for KeyE (later wins). -/
def discreteYaw (keys : KeyCode → Bool) : α :=
  let y1 : α := if keys KeyCode.KeyQ then 1 else 0
  if keys KeyCode.KeyE then -1 else y1

/-- Analog axis mapping of the gamepad branch of getState, in the order
thrust, yaw, pitch, roll: thrust = (-axes 1 + 1) / 2, yaw = -axes 0,
pitch = axes 3, roll = axes 2, with a 0.1 deadzone snapping yaw, pitch
and roll to exactly 0. -/
def analogAxes (gp : Gamepad α) : α × α × α × α :=
  let thrust := (-(gp.axes 1) + 1) / 2
  let yaw0 := -(gp.axes 0)
  let pitch0 := gp.axes 3
  let roll0 := gp.axes 2
  let yaw := if abs yaw0 < 1 / 10 then 0 else yaw0
  let pitch := if abs pitch0 < 1 / 10 then 0 else pitch0
  let roll := if abs roll0 < 1 / 10 then 0 else roll0
  (thrust, yaw, pitch, roll)

/-- One call of InputHandler.getState. The parameter gpRead is the value
navigator.getGamepads() holds at the recorded index at this poll (it is
only consulted when an index is recorded, and may be none). Returns the
control input together with the successor handler state: the pending
toggle flag is consumed (set to false) unconditionally at the start,
before either branch runs. With a recorded index the keyboard branch is
skipped entirely; a pressed button 0 forces the returned toggle to true
with no consumption of anything. Without a recorded index the axes come
from the discrete keyboard mappings. -/
def getState (gpRead : Option (Gamepad α)) (h : Handler α) :
    ControlInput α × Handler α :=
  let pendingToggle := h.toggleMode
  let h1 : Handler α := { h with toggleMode := false }
  if h.gamepadIndex.isSome then
    match gpRead with
    | some gp =>
        let a := analogAxes gp
        let toggle := if gp.button0 then true else pendingToggle
        (⟨a.1, a.2.1, a.2.2.1, a.2.2.2, toggle⟩, h1)
    | none => (⟨0, 0, 0, 0, pendingToggle⟩, h1)
  else
    (⟨discreteThrust h.keys, discreteYaw h.keys, discretePitch h.keys,
      discreteRoll h.keys, pendingToggle⟩, h1)

/-- One frame of the game loop as seen by the physics core: the timestep,
the sampled input, the collidable list and the random draws. -/
structure Step (α : Type) where
  dt : α
  input : ControlInput α
  collidables : List (Collidable α)
  rnd : Vec3 α

/-- A sequence of update calls. -/
def runSteps (ops : MathOps α) (cfg : Config α) :
    List (Step α) → DroneState α → DroneState α
  | [], s => s
  | st :: rest, s =>
      runSteps ops cfg rest (update ops cfg st.dt st.input st.collidables st.rnd s)

/-- Componentwise form of vector addition. -/
theorem Vec3.add_def (a b : Vec3 α) : a + b = ⟨a.x + b.x, a.y + b.y, a.z + b.z⟩ := rfl

/-- The angular velocity returned by update is exactly the output of the
collision stage. -/
theorem update_angularVelocity_def (ops : MathOps α) (cfg : Config α) (dt : α)
    (input : ControlInput α) (cs : List (Collidable α)) (rnd : Vec3 α)
    (s : DroneState α) :
    (update ops cfg dt input cs rnd s).angularVelocity =
      (postCollision ops cfg dt input cs rnd s).2 := rfl

/-- The velocity returned by update is the ground-clamped collision-stage
velocity. -/
theorem update_velocity_def (ops : MathOps α) (cfg : Config α) (dt : α)
    (input : ControlInput α) (cs : List (Collidable α)) (rnd : Vec3 α)
    (s : DroneState α) :
    (update ops cfg dt input cs rnd s).velocity =
      (groundClamp (preClampPosition ops cfg dt input cs rnd s)
        (postCollision ops cfg dt input cs rnd s).1).2 := rfl

/-- The position returned by update is the ground-clamped integrated
position. -/
theorem update_position_def (ops : MathOps α) (cfg : Config α) (dt : α)
    (input : ControlInput α) (cs : List (Collidable α)) (rnd : Vec3 α)
    (s : DroneState α) :
    (update ops cfg dt input cs rnd s).position =
      (groundClamp (preClampPosition ops cfg dt input cs rnd s)
        (postCollision ops cfg dt input cs rnd s).1).1 := rfl

/-- The orientation returned by update is the rotated quaternion. -/
theorem update_quaternion_def (ops : MathOps α) (cfg : Config α) (dt : α)
    (input : ControlInput α) (cs : List (Collidable α)) (rnd : Vec3 α)
    (s : DroneState α) :
    (update ops cfg dt input cs rnd s).quaternion =
      newQuaternion ops cfg dt input s := rfl

/-- With an empty collidable list the collision stage is the identity. -/
theorem collisionResponse_nil (ops : MathOps α) (cfg : Config α) (dt : α)
    (rnd pos v av : Vec3 α) :
    collisionResponse ops cfg dt [] rnd pos v av = (v, av) := by
  simp [collisionResponse]

/-- With an empty collidable list the collision stage passes the forces
velocity and the derived angular velocity through unchanged. -/
theorem postCollision_nil (ops : MathOps α) (cfg : Config α) (dt : α)
    (input : ControlInput α) (rnd : Vec3 α) (s : DroneState α) :
    postCollision ops cfg dt input [] rnd s =
      (velocityAfterForces ops cfg dt input s,
       derivedAngularVelocity ops cfg dt input s) := by
  unfold postCollision
  exact collisionResponse_nil ops cfg dt rnd s.position _ _

/-- The clamped position keeps the horizontal x component. -/
theorem groundClamp_fst_x (p v : Vec3 α) : ((groundClamp p v).1).x = p.x := by
  unfold groundClamp
  split <;> rfl

/-- The clamped height is always at least 0.2. -/
theorem groundClamp_fst_y_ge (p v : Vec3 α) : 1 / 5 ≤ ((groundClamp p v).1).y := by
  unfold groundClamp
  split
  case isTrue h => exact le_refl _
  case isFalse h => exact le_of_not_lt h

/-- The squared norm is multiplicative for the Hamilton product. -/
theorem quatNormSq_qmul (a b : Quat α) :
    quatNormSq (qmul a b) = quatNormSq a * quatNormSq b := by
  simp only [quatNormSq, qmul]
  ring

/-- Squared norm of the X axis-angle quaternion under the Pythagorean
identity. -/
theorem quatNormSq_axisQuatX (ops : MathOps α)
    (hp : ∀ t, ops.cos t ^ 2 + ops.sin t ^ 2 = 1) (a : α) :
    quatNormSq (axisQuatX ops a) = 1 := by
  have h := hp (a / 2)
  simp only [quatNormSq, axisQuatX]
  nlinarith [h]

/-- Squared norm of the Y axis-angle quaternion under the Pythagorean
identity. -/
theorem quatNormSq_axisQuatY (ops : MathOps α)
    (hp : ∀ t, ops.cos t ^ 2 + ops.sin t ^ 2 = 1) (a : α) :
    quatNormSq (axisQuatY ops a) = 1 := by
  have h := hp (a / 2)
  simp only [quatNormSq, axisQuatY]
  nlinarith [h]

/-- Squared norm of the Z axis-angle quaternion under the Pythagorean
identity. -/
theorem quatNormSq_axisQuatZ (ops : MathOps α)
    (hp : ∀ t, ops.cos t ^ 2 + ops.sin t ^ 2 = 1) (a : α) :
    quatNormSq (axisQuatZ ops a) = 1 := by
  have h := hp (a / 2)
  simp only [quatNormSq, axisQuatZ]
  nlinarith [h]

/-- The three sequential body-axis rotations of one frame preserve the
squared norm of the orientation. -/
theorem quatNormSq_rotateQuat (ops : MathOps α)
    (hp : ∀ t, ops.cos t ^ 2 + ops.sin t ^ 2 = 1) (q : Quat α) (av : Vec3 α)
    (dt : α) :
    quatNormSq (rotateQuat ops q av dt) = quatNormSq q := by
  unfold rotateQuat
  rw [quatNormSq_qmul, quatNormSq_qmul, quatNormSq_qmul,
    quatNormSq_axisQuatX ops hp, quatNormSq_axisQuatY ops hp,
    quatNormSq_axisQuatZ ops hp]
  ring

/-- Unclamped linear interpolation with a factor in the unit interval
stays between the endpoints. -/
theorem lerp_between (a b u : α) (h0 : 0 ≤ u) (h1 : u ≤ 1) :
    min a b ≤ a + (b - a) * u ∧ a + (b - a) * u ≤ max a b := by
  rcases le_total a b with h | h
  · rw [min_eq_left h, max_eq_right h]
    constructor <;> nlinarith
  · rw [min_eq_right h, max_eq_left h]
    constructor <;> nlinarith

/-- Running an appended list of frames runs the two parts in sequence. -/
theorem runSteps_append (ops : MathOps α) (cfg : Config α)
    (l1 l2 : List (Step α)) (s : DroneState α) :
    runSteps ops cfg (l1 ++ l2) s = runSteps ops cfg l2 (runSteps ops cfg l1 s) := by
  induction l1 generalizing s with
  | nil => rfl
  | cons x rest ih =>
      simp only [List.cons_append, runSteps]
      exact ih _

/-- With timestep exactly 1/10 and no collidables, one update sets the
yaw angular velocity to input.yaw * acroRate in both modes: LEVEL
assigns it directly, and the ACRO lerp factor (1/10) * 10 = 1 makes the
lerp land exactly on the target. -/
theorem update_avy_at_dt_tenth (ops : MathOps α) (cfg : Config α)
    (input : ControlInput α) (rnd : Vec3 α) (s : DroneState α) :
    (update ops cfg (1 / 10) input [] rnd s).angularVelocity.y =
      input.yaw * cfg.acroRate := by
  rw [update_angularVelocity_def, postCollision_nil]
  cases hm : s.mode with
  | ACRO =>
      simp only [derivedAngularVelocity, hm, lerpV]
      ring
  | LEVEL =>
      simp only [derivedAngularVelocity, hm]

/-- Trivial interpretation of the abstract operations over the rationals
(cosine constantly 1, sine constantly 0, length and Euler components
constantly 0); it satisfies the Pythagorean identity. -/
def trivOps : MathOps ℚ :=
  { cos := fun _ => 1
    sin := fun _ => 0
    len := fun _ => 0
    eulerX := fun _ => 0
    eulerZ := fun _ => 0 }

/-- Interpretation whose length operation is constantly 1, used to
exercise the collision branch. -/
def unitLenOps : MathOps ℚ :=
  { cos := fun _ => 1
    sin := fun _ => 0
    len := fun _ => 1
    eulerX := fun _ => 0
    eulerZ := fun _ => 0 }

/-- The zero vector over the rationals. -/
def zeroVec : Vec3 ℚ := ⟨0, 0, 0⟩

/-- The identity quaternion over the rationals. -/
def idQuat : Quat ℚ := ⟨1, 0, 0, 0⟩

/-- The all-zero control input. -/
def zeroInput : ControlInput ℚ := ⟨0, 0, 0, 0, false⟩

/-- Full positive yaw deflection, all other axes zero. -/
def yawInput : ControlInput ℚ := ⟨0, 1, 0, 0, false⟩

/-- Full positive pitch deflection, all other axes zero. -/
def pitchInput : ControlInput ℚ := ⟨0, 0, 1, 0, false⟩

/-- The spawn state of the drone: two units above the ground, identity
orientation, at rest, in ACRO mode. -/
def initState : DroneState ℚ := ⟨⟨0, 2, 0⟩, idQuat, zeroVec, zeroVec, Mode.ACRO⟩

/-- One frame with timestep 1, zero input, no collidables. -/
def step1 : Step ℚ := ⟨1, zeroInput, [], zeroVec⟩

/-- One frame with timestep 1/10, full yaw deflection, no collidables. -/
def stepTenth : Step ℚ := ⟨1 / 10, yawInput, [], zeroVec⟩

/-- A collidable whose ray cast always reports a hit at distance 1/10. -/
def rayTenth : Collidable ℚ := fun _ _ => some (1 / 10)

/-- Singleton collidable list for the collision witness. -/
def cs1 : List (Collidable ℚ) := [rayTenth]

/-- Concrete outcome of the three uniform random draws. -/
def rnd3 : Vec3 ℚ := ⟨0, 1 / 2, 1⟩

/-- A state resting exactly on the ground plane. -/
def sGround : DroneState ℚ := ⟨⟨0, 0, 0⟩, idQuat, zeroVec, zeroVec, Mode.ACRO⟩

/-- A state high above the ground moving along positive x. -/
def s9 : DroneState ℚ := ⟨⟨0, 20, 0⟩, idQuat, ⟨1, 0, 0⟩, zeroVec, Mode.ACRO⟩

/-- C1 counterexample: from the same resting state with full yaw input and
timestep 1/100, one update in ACRO mode yields yaw angular velocity 4/5
(the lerp moves only a tenth of the way to the target 8) while the same
update in LEVEL mode yields 8 (direct assignment), so the yaw-rate
trajectories of the two modes are not identical. -/
theorem yaw_law_mode_dependent_cex :
    (update trivOps defaultConfig (1 / 100) yawInput [] zeroVec
        initState).angularVelocity.y ≠
      (update trivOps defaultConfig (1 / 100) yawInput [] zeroVec
        { initState with mode := Mode.LEVEL }).angularVelocity.y := by
  simp only [update_angularVelocity_def, postCollision_nil]
  norm_num [derivedAngularVelocity, initState, yawInput, defaultConfig,
    lerpV, zeroVec, idQuat, trivOps]

/-- C1 amended: both modes share the yaw target input.yaw * acroRate, but
ACRO smooths toward it while LEVEL assigns it; the yaw-rate trajectories
coincide when every frame has timestep exactly 1/10 (lerp factor 1) and
no collidables, for every start state and every nonempty input
sequence. -/
theorem yaw_trajectories_agree_at_dt_tenth (ops : MathOps α) (cfg : Config α)
    (steps : List (Step α)) (lastStep : Step α)
    (hsteps : ∀ st ∈ steps ++ [lastStep], st.dt = 1 / 10 ∧ st.collidables = [])
    (s : DroneState α) :
    (runSteps ops cfg (steps ++ [lastStep])
        { s with mode := Mode.ACRO }).angularVelocity.y =
      (runSteps ops cfg (steps ++ [lastStep])
        { s with mode := Mode.LEVEL }).angularVelocity.y := by
  obtain ⟨hdt, hcs⟩ := hsteps lastStep (by simp)
  rw [runSteps_append, runSteps_append]
  simp only [runSteps]
  rw [hdt, hcs, update_avy_at_dt_tenth, update_avy_at_dt_tenth]

/-- C1 amended witness at a concrete one-frame sequence. -/
theorem yaw_trajectories_agree_at_dt_tenth_witness :
    (∀ st ∈ ([] : List (Step ℚ)) ++ [stepTenth],
      st.dt = 1 / 10 ∧ st.collidables = []) ∧
    (runSteps trivOps defaultConfig ([] ++ [stepTenth])
        { initState with mode := Mode.ACRO }).angularVelocity.y =
      (runSteps trivOps defaultConfig ([] ++ [stepTenth])
        { initState with mode := Mode.LEVEL }).angularVelocity.y :=
  ⟨by intro st hst; simp at hst; subst hst; exact ⟨rfl, rfl⟩,
   yaw_trajectories_agree_at_dt_tenth trivOps defaultConfig [] stepTenth
     (by intro st hst; simp at hst; subst hst; exact ⟨rfl, rfl⟩) initState⟩

/-- C2 counterexample: in ACRO mode with timestep 1/5 and full pitch, the
lerp factor dt * 10 = 2 is not clamped, so the new pitch rate is 16,
overshooting the target 8; the claimed formula with factor
min(1, dt * 10) would give 8, and 16 also violates the claimed
betweenness of old value (0) and target (8). -/
theorem acro_lerp_unclamped_cex :
    (update trivOps defaultConfig (1 / 5) pitchInput [] zeroVec
        initState).angularVelocity.x = 16 ∧
    (lerpV initState.angularVelocity ⟨8, 0, 0⟩ (min 1 ((1 / 5) * 10))).x = 8 ∧
    max initState.angularVelocity.x 8 < (16 : ℚ) := by
  refine ⟨?_, ?_, ?_⟩
  · simp only [update_angularVelocity_def, postCollision_nil]
    norm_num [derivedAngularVelocity, initState, pitchInput, defaultConfig,
      lerpV, zeroVec, idQuat, trivOps]
  · norm_num [lerpV, initState, zeroVec, min_def]
  · norm_num [initState, zeroVec, max_def]

/-- C2 amended: in ACRO mode with no collidables, update sets the new
angular velocity to lerp(angularVelocity, target, dt * 10) with an
UNCLAMPED factor; when moreover dt is at most 1/10 the factor lies in
the unit interval and every component of the new angular velocity lies
between the old value and the target. -/
theorem acro_angular_velocity_lerp (ops : MathOps α) (cfg : Config α)
    (dt : α) (input : ControlInput α) (rnd : Vec3 α) (s : DroneState α)
    (hm : s.mode = Mode.ACRO) (hdt : 0 ≤ dt) :
    (update ops cfg dt input [] rnd s).angularVelocity =
      lerpV s.angularVelocity
        ⟨input.pitch * cfg.acroRate, input.yaw * cfg.acroRate,
         input.roll * cfg.acroRate⟩ (dt * 10) ∧
    (dt ≤ 1 / 10 →
      (min s.angularVelocity.x (input.pitch * cfg.acroRate) ≤
          (update ops cfg dt input [] rnd s).angularVelocity.x ∧
        (update ops cfg dt input [] rnd s).angularVelocity.x ≤
          max s.angularVelocity.x (input.pitch * cfg.acroRate)) ∧
      (min s.angularVelocity.y (input.yaw * cfg.acroRate) ≤
          (update ops cfg dt input [] rnd s).angularVelocity.y ∧
        (update ops cfg dt input [] rnd s).angularVelocity.y ≤
          max s.angularVelocity.y (input.yaw * cfg.acroRate)) ∧
      (min s.angularVelocity.z (input.roll * cfg.acroRate) ≤
          (update ops cfg dt input [] rnd s).angularVelocity.z ∧
        (update ops cfg dt input [] rnd s).angularVelocity.z ≤
          max s.angularVelocity.z (input.roll * cfg.acroRate))) := by
  have hav : (update ops cfg dt input [] rnd s).angularVelocity =
      lerpV s.angularVelocity
        ⟨input.pitch * cfg.acroRate, input.yaw * cfg.acroRate,
         input.roll * cfg.acroRate⟩ (dt * 10) := by
    rw [update_angularVelocity_def, postCollision_nil]
    simp only [derivedAngularVelocity, hm]
  refine ⟨hav, fun hsmall => ?_⟩
  have h0 : 0 ≤ dt * 10 := by nlinarith
  have h1 : dt * 10 ≤ 1 := by linarith
  rw [hav]
  simp only [lerpV]
  exact ⟨lerp_between _ _ _ h0 h1, lerp_between _ _ _ h0 h1,
    lerp_between _ _ _ h0 h1⟩

/-- C2 amended witness at timestep 1/20 with full pitch deflection. -/
theorem acro_angular_velocity_lerp_witness :
    initState.mode = Mode.ACRO ∧ (0 : ℚ) ≤ 1 / 20 ∧
    (update trivOps defaultConfig (1 / 20) pitchInput [] zeroVec
        initState).angularVelocity =
      lerpV initState.angularVelocity
        ⟨pitchInput.pitch * defaultConfig.acroRate,
         pitchInput.yaw * defaultConfig.acroRate,
         pitchInput.roll * defaultConfig.acroRate⟩ ((1 / 20) * 10) :=
  ⟨rfl, by norm_num,
   (acro_angular_velocity_lerp trivOps defaultConfig (1 / 20) pitchInput
     zeroVec initState rfl (by norm_num)).1⟩

/-- C3: whenever the collision branch is taken (nonempty collidables,
speed above 0.1, nearest hit closer than the lookahead), the
post-collision velocity is the pre-collision velocity scaled by -0.5,
and the reseeded angular velocity returned by update has every
component in [-5, 5] for every outcome of the three uniform draws. -/
theorem collision_branch_response (ops : MathOps α) (cfg : Config α) (dt : α)
    (input : ControlInput α) (cs : List (Collidable α)) (rnd : Vec3 α)
    (s : DroneState α) (d : α)
    (hcs : 0 < cs.length)
    (hspeed : 1 / 10 < ops.len (velocityAfterForces ops cfg dt input s))
    (hhit : nearestHit cs s.position
        (normalize ops (velocityAfterForces ops cfg dt input s)) = some d)
    (hnear : d < max cfg.collisionRadius
        (ops.len (velocityAfterForces ops cfg dt input s) * dt * 2))
    (hrx : 0 ≤ rnd.x ∧ rnd.x ≤ 1) (hry : 0 ≤ rnd.y ∧ rnd.y ≤ 1)
    (hrz : 0 ≤ rnd.z ∧ rnd.z ≤ 1) :
    (postCollision ops cfg dt input cs rnd s).1 =
      (velocityAfterForces ops cfg dt input s).scale (-(1 / 2)) ∧
    (update ops cfg dt input cs rnd s).angularVelocity =
      ⟨(rnd.x - 1 / 2) * 10, (rnd.y - 1 / 2) * 10, (rnd.z - 1 / 2) * 10⟩ ∧
    (-5 ≤ (update ops cfg dt input cs rnd s).angularVelocity.x ∧
      (update ops cfg dt input cs rnd s).angularVelocity.x ≤ 5) ∧
    (-5 ≤ (update ops cfg dt input cs rnd s).angularVelocity.y ∧
      (update ops cfg dt input cs rnd s).angularVelocity.y ≤ 5) ∧
    (-5 ≤ (update ops cfg dt input cs rnd s).angularVelocity.z ∧
      (update ops cfg dt input cs rnd s).angularVelocity.z ≤ 5) := by
  have hpc : postCollision ops cfg dt input cs rnd s =
      ((velocityAfterForces ops cfg dt input s).scale (-(1 / 2)),
       ⟨(rnd.x - 1 / 2) * 10, (rnd.y - 1 / 2) * 10, (rnd.z - 1 / 2) * 10⟩) := by
    unfold postCollision collisionResponse
    rw [if_pos ⟨hcs, hspeed⟩, hhit]
    dsimp only
    rw [if_pos hnear]
  refine ⟨by rw [hpc], by rw [update_angularVelocity_def, hpc], ?_, ?_, ?_⟩
  · rw [update_angularVelocity_def, hpc]
    dsimp
    constructor <;> nlinarith [hrx.1, hrx.2]
  · rw [update_angularVelocity_def, hpc]
    dsimp
    constructor <;> nlinarith [hry.1, hry.2]
  · rw [update_angularVelocity_def, hpc]
    dsimp
    constructor <;> nlinarith [hrz.1, hrz.2]

/-- C3 witness: a concrete crash frame in which all branch conditions are
checked by evaluation. -/
theorem collision_branch_response_witness :
    nearestHit cs1 initState.position
      (normalize unitLenOps
        (velocityAfterForces unitLenOps defaultConfig 1 zeroInput initState)) =
      some (1 / 10) ∧
    (postCollision unitLenOps defaultConfig 1 zeroInput cs1 rnd3 initState).1 =
      (velocityAfterForces unitLenOps defaultConfig 1 zeroInput
        initState).scale (-(1 / 2)) ∧
    (update unitLenOps defaultConfig 1 zeroInput cs1 rnd3
        initState).angularVelocity =
      ⟨(rnd3.x - 1 / 2) * 10, (rnd3.y - 1 / 2) * 10, (rnd3.z - 1 / 2) * 10⟩ :=
  ⟨rfl,
   (collision_branch_response unitLenOps defaultConfig 1 zeroInput cs1 rnd3
     initState (1 / 10) (by norm_num [cs1])
     (by norm_num [unitLenOps]) rfl
     (by norm_num [unitLenOps, defaultConfig, max_def])
     (by norm_num [rnd3]) (by norm_num [rnd3]) (by norm_num [rnd3])).1,
   (collision_branch_response unitLenOps defaultConfig 1 zeroInput cs1 rnd3
     initState (1 / 10) (by norm_num [cs1])
     (by norm_num [unitLenOps]) rfl
     (by norm_num [unitLenOps, defaultConfig, max_def])
     (by norm_num [rnd3]) (by norm_num [rnd3]) (by norm_num [rnd3])).2.1⟩

/-- C4: ground clamp invariant — from any state at least 0.2 above the
origin plane, after any sequence of updates with nonnegative timesteps,
arbitrary inputs, collidables and random draws, the height stays at
least 0.2. -/
theorem ground_clamp_invariant (ops : MathOps α) (cfg : Config α)
    (steps : List (Step α)) (s : DroneState α)
    (hdt : ∀ st ∈ steps, 0 ≤ st.dt) (h0 : 1 / 5 ≤ s.position.y) :
    1 / 5 ≤ (runSteps ops cfg steps s).position.y := by
  induction steps generalizing s with
  | nil => exact h0
  | cons x rest ih =>
      simp only [runSteps]
      exact ih _ (fun st hst => hdt st (List.mem_cons_of_mem _ hst))
        (by rw [update_position_def]; exact groundClamp_fst_y_ge _ _)

/-- C4 witness at a concrete one-frame sequence. -/
theorem ground_clamp_invariant_witness :
    (∀ st ∈ [step1], (0 : ℚ) ≤ st.dt) ∧ (1 : ℚ) / 5 ≤ initState.position.y ∧
    1 / 5 ≤ (runSteps trivOps defaultConfig [step1] initState).position.y :=
  ⟨by intro st hst; simp at hst; subst hst; norm_num [step1],
   by norm_num [initState],
   ground_clamp_invariant trivOps defaultConfig [step1] initState
     (by intro st hst; simp at hst; subst hst; norm_num [step1])
     (by norm_num [initState])⟩

/-- C5: orientation unit-norm invariant — in the idealized real-arithmetic
embedding, for every interpretation of cosine and sine satisfying the
Pythagorean identity, any sequence of updates preserves the unit
squared norm of the orientation quaternion, because each update only
composes it with the three body-axis rotations. -/
theorem orientation_unit_norm_invariant (ops : MathOps α) (cfg : Config α)
    (steps : List (Step α)) (s : DroneState α)
    (hp : ∀ t, ops.cos t ^ 2 + ops.sin t ^ 2 = 1)
    (h1 : quatNormSq s.quaternion = 1) :
    quatNormSq (runSteps ops cfg steps s).quaternion = 1 := by
  induction steps generalizing s with
  | nil => exact h1
  | cons x rest ih =>
      simp only [runSteps]
      refine ih _ ?_
      rw [update_quaternion_def]
      unfold newQuaternion
      rw [quatNormSq_rotateQuat ops hp]
      exact h1

/-- C5 witness: the trivial interpretation satisfies the Pythagorean
identity and the spawn orientation is unit, so one concrete frame keeps
the squared norm at 1. -/
theorem orientation_unit_norm_invariant_witness :
    (∀ t : ℚ, trivOps.cos t ^ 2 + trivOps.sin t ^ 2 = 1) ∧
    quatNormSq initState.quaternion = 1 ∧
    quatNormSq
      (runSteps trivOps defaultConfig [step1] initState).quaternion = 1 :=
  ⟨fun t => by simp [trivOps], by norm_num [quatNormSq, initState, idQuat],
   orientation_unit_norm_invariant trivOps defaultConfig [step1] initState
     (fun t => by simp [trivOps]) (by norm_num [quatNormSq, initState, idQuat])⟩

/-- C9 counterexample: update accepts a negative timestep without any
rejection and integrates the state backward — from a state moving along
positive x, one update with timestep -1 strictly decreases the x
coordinate instead of failing. -/
theorem negative_dt_integrates_cex :
    (0 : ℚ) < s9.velocity.x ∧
    (update trivOps defaultConfig (-1) zeroInput [] zeroVec s9).position.x <
      s9.position.x := by
  have hx : (update trivOps defaultConfig (-1) zeroInput [] zeroVec
      s9).position.x = -(3 / 2) := by
    rw [update_position_def, groundClamp_fst_x]
    unfold preClampPosition
    rw [postCollision_nil]
    norm_num [velocityAfterForces, newQuaternion, derivedAngularVelocity,
      rotateQuat, axisQuatX, axisQuatY, axisQuatZ, qmul, applyQuat, lerpV,
      s9, zeroInput, zeroVec, idQuat, defaultConfig, trivOps, Vec3.scale,
      Vec3.add_def]
  constructor
  · norm_num [s9]
  · rw [hx]
    norm_num [s9]

/-- C9 amended: update has no validation of dt — for every negative
timestep it applies the very same Euler step, so the x coordinate moves
by the integrated velocity times the (negative) dt. -/
theorem negative_dt_not_rejected (ops : MathOps α) (cfg : Config α) (dt : α)
    (input : ControlInput α) (rnd : Vec3 α) (s : DroneState α)
    (_hdt : dt < 0) :
    (update ops cfg dt input [] rnd s).position.x =
      s.position.x + (velocityAfterForces ops cfg dt input s).x * dt := by
  rw [update_position_def, groundClamp_fst_x]
  unfold preClampPosition
  rw [postCollision_nil]
  rfl

/-- C9 amended witness at timestep -1. -/
theorem negative_dt_not_rejected_witness :
    (-1 : ℚ) < 0 ∧
    (update trivOps defaultConfig (-1) zeroInput [] zeroVec s9).position.x =
      s9.position.x +
        (velocityAfterForces trivOps defaultConfig (-1) zeroInput s9).x * (-1) :=
  ⟨by norm_num,
   negative_dt_not_rejected trivOps defaultConfig (-1) zeroInput zeroVec s9
     (by norm_num)⟩

/-- C10: when the ground clamp fires, the returned vertical velocity is
max(0, -0.5 vy) — nonnegative always, exactly 0 when the pre-clamp
vertical velocity was nonnegative, and -0.5 times it when it was
negative — while the horizontal components are scaled by 0.8. -/
theorem ground_clamp_velocity_response (ops : MathOps α) (cfg : Config α)
    (dt : α) (input : ControlInput α) (cs : List (Collidable α))
    (rnd : Vec3 α) (s : DroneState α)
    (hfire : (preClampPosition ops cfg dt input cs rnd s).y < 1 / 5) :
    (update ops cfg dt input cs rnd s).velocity =
      ⟨(postCollision ops cfg dt input cs rnd s).1.x * (4 / 5),
       max 0 ((postCollision ops cfg dt input cs rnd s).1.y * (-(1 / 2))),
       (postCollision ops cfg dt input cs rnd s).1.z * (4 / 5)⟩ ∧
    0 ≤ (update ops cfg dt input cs rnd s).velocity.y ∧
    (0 ≤ (postCollision ops cfg dt input cs rnd s).1.y →
      (update ops cfg dt input cs rnd s).velocity.y = 0) ∧
    ((postCollision ops cfg dt input cs rnd s).1.y < 0 →
      (update ops cfg dt input cs rnd s).velocity.y =
        (postCollision ops cfg dt input cs rnd s).1.y * (-(1 / 2))) := by
  have hv : (update ops cfg dt input cs rnd s).velocity =
      ⟨(postCollision ops cfg dt input cs rnd s).1.x * (4 / 5),
       max 0 ((postCollision ops cfg dt input cs rnd s).1.y * (-(1 / 2))),
       (postCollision ops cfg dt input cs rnd s).1.z * (4 / 5)⟩ := by
    rw [update_velocity_def]
    unfold groundClamp
    rw [if_pos hfire]
  refine ⟨hv, ?_, ?_, ?_⟩
  · rw [hv]
    exact le_max_left _ _
  · intro hy
    rw [hv]
    dsimp
    exact max_eq_left (by nlinarith)
  · intro hy
    rw [hv]
    dsimp
    exact max_eq_right (by nlinarith)

/-- C10 witness: a frame in which the drone sits on the ground plane and
the clamp fires. -/
theorem ground_clamp_velocity_response_witness :
    (preClampPosition trivOps defaultConfig 0 zeroInput [] zeroVec
        sGround).y < 1 / 5 ∧
    0 ≤ (update trivOps defaultConfig 0 zeroInput [] zeroVec
        sGround).velocity.y :=
  ⟨by
    unfold preClampPosition
    rw [postCollision_nil]
    norm_num [velocityAfterForces, newQuaternion, derivedAngularVelocity,
      rotateQuat, axisQuatX, axisQuatY, axisQuatZ, qmul, applyQuat, lerpV,
      sGround, zeroInput, zeroVec, idQuat, defaultConfig, trivOps,
      Vec3.scale, Vec3.add_def],
   (ground_clamp_velocity_response trivOps defaultConfig 0 zeroInput []
     zeroVec sGround (by
      unfold preClampPosition
      rw [postCollision_nil]
      norm_num [velocityAfterForces, newQuaternion, derivedAngularVelocity,
        rotateQuat, axisQuatX, axisQuatY, axisQuatZ, qmul, applyQuat, lerpV,
        sGround, zeroInput, zeroVec, idQuat, defaultConfig, trivOps,
        Vec3.scale, Vec3.add_def])).2.1⟩

/-- Both branches of getState return the handler with the pending toggle
flag consumed and everything else unchanged. -/
theorem getState_snd (g : Option (Gamepad α)) (h : Handler α) :
    (getState g h).2 = { h with toggleMode := false } := by
  unfold getState
  dsimp only
  split
  · cases g with
    | some gp => rfl
    | none => rfl
  · rfl

/-- A gamepad snapshot with centered sticks and button 0 held. -/
def gpHeld : Gamepad ℚ := ⟨fun _ => 0, true⟩

/-- Handler state with a recorded gamepad, no pending toggle, no keys. -/
def hGp : Handler ℚ := ⟨fun _ => false, some 0, false⟩

/-- Handler state with only the KeyM key held and a pending toggle flag,
no gamepad. -/
def hKeyM : Handler ℚ :=
  ⟨fun c => match c with | KeyCode.KeyM => true | _ => false, none, true⟩

/-- Handler state with KeyW and KeyS both held, no gamepad. -/
def hBothWS : Handler ℚ :=
  ⟨fun c => match c with
    | KeyCode.KeyW => true
    | KeyCode.KeyS => true
    | _ => false,
   none, false⟩

/-- Handler state with only KeyW held, no gamepad. -/
def hOnlyW : Handler ℚ :=
  ⟨fun c => match c with | KeyCode.KeyW => true | _ => false, none, false⟩

/-- Handler state with Space held and a recorded gamepad index. -/
def hSpaceGp : Handler ℚ :=
  ⟨fun c => match c with | KeyCode.Space => true | _ => false, some 0, false⟩

/-- Handler state with Space held and no gamepad. -/
def hSpace : Handler ℚ :=
  ⟨fun c => match c with | KeyCode.Space => true | _ => false, none, false⟩

/-- C6 counterexample: with a connected gamepad whose button 0 is held
across two consecutive polls, getState returns toggleMode = true on
BOTH calls — the gamepad path of the toggle is not edge-triggered, so
the flag is not consumed regardless of source. -/
theorem gamepad_toggle_not_edge_triggered_cex :
    ((getState (some gpHeld) hGp).1).toggleMode = true ∧
    ((getState (some gpHeld) ((getState (some gpHeld) hGp).2)).1).toggleMode =
      true := by
  exact ⟨rfl, rfl⟩

/-- C6 amended: for the keyboard source (no gamepad recorded), the toggle
is edge-triggered — across any two consecutive polls with the KeyM key
held and no intervening key events, the second poll always returns
toggleMode = false, because the first poll consumed the pending flag. -/
theorem keyboard_toggle_edge_consumed (h : Handler α)
    (g1 g2 : Option (Gamepad α)) (hgp : h.gamepadIndex = none)
    (_hkey : h.keys KeyCode.KeyM = true) :
    ((getState g2 ((getState g1 h).2)).1).toggleMode = false := by
  rw [getState_snd]
  unfold getState
  dsimp only
  rw [hgp]
  rfl

/-- C6 amended witness: a concrete handler with KeyM held and a pending
flag; the second of two consecutive polls reads false. -/
theorem keyboard_toggle_edge_consumed_witness :
    hKeyM.gamepadIndex = none ∧ hKeyM.keys KeyCode.KeyM = true ∧
    ((getState none ((getState (none : Option (Gamepad ℚ)) hKeyM).2)).1).toggleMode =
      false :=
  ⟨rfl, rfl, keyboard_toggle_edge_consumed hKeyM none none rfl rfl⟩

/-- C7 counterexample: with both keys of the pitch pair (KeyW and KeyS)
held and no gamepad, getState returns pitch = 1, not the claimed 0 —
the later assignment wins. -/
theorem both_keys_held_nonzero_cex :
    hBothWS.keys KeyCode.KeyW = true ∧ hBothWS.keys KeyCode.KeyS = true ∧
    ((getState (none : Option (Gamepad ℚ)) hBothWS).1).pitch ≠ 0 := by
  refine ⟨rfl, rfl, ?_⟩
  norm_num [getState, hBothWS, discretePitch]

/-- C7 amended: with no gamepad recorded, each axis follows a
last-assignment-wins key pair: pitch is 1 under KeyS (even when KeyW is
also held), -1 under KeyW alone, else 0; roll is 1 under KeyD (even
with KeyA), -1 under KeyA alone, else 0; yaw is -1 under KeyE (even
with KeyQ), 1 under KeyQ alone, else 0. In particular the value is 0
exactly when neither key of the pair is held, and +-1 when exactly one
is held. -/
theorem discrete_key_pair_mapping (h : Handler α) (g : Option (Gamepad α))
    (hgp : h.gamepadIndex = none) :
    ((getState g h).1).pitch =
      (if h.keys KeyCode.KeyS then 1
        else if h.keys KeyCode.KeyW then -1 else 0) ∧
    ((getState g h).1).roll =
      (if h.keys KeyCode.KeyD then 1
        else if h.keys KeyCode.KeyA then -1 else 0) ∧
    ((getState g h).1).yaw =
      (if h.keys KeyCode.KeyE then -1
        else if h.keys KeyCode.KeyQ then 1 else 0) := by
  unfold getState
  rw [hgp]
  exact ⟨rfl, rfl, rfl⟩

/-- C7 amended witness: only KeyW held gives pitch = -1 by the key-pair
rule. -/
theorem discrete_key_pair_mapping_witness :
    hOnlyW.gamepadIndex = none ∧
    ((getState (none : Option (Gamepad ℚ)) hOnlyW).1).pitch =
      (if hOnlyW.keys KeyCode.KeyS then 1
        else if hOnlyW.keys KeyCode.KeyW then -1 else 0) :=
  ⟨rfl, (discrete_key_pair_mapping hOnlyW none rfl).1⟩

/-- C8 counterexample: with a recorded gamepad index but no reading
available at this poll (navigator returned null), getState does NOT
fall back to the keyboard: Space is held so the discrete mapping gives
thrust 1, yet the returned thrust is 0. -/
theorem attached_without_reading_no_fallback_cex :
    ((getState (none : Option (Gamepad ℚ)) hSpaceGp).1).thrust = 0 ∧
    discreteThrust hSpaceGp.keys = (1 : ℚ) := by
  exact ⟨rfl, rfl⟩

/-- C8 amended: getState is total (never fails) and its axis outputs fall
into three cases — with no gamepad recorded they are exactly the
discrete keyboard mappings; with a recorded gamepad and a reading they
are exactly the deadzoned analog mappings of the reading, independent
of the keys (full override); with a recorded gamepad but no reading
they are all 0, not the keyboard fallback. -/
theorem analog_fallback_and_override (h : Handler α) (g : Option (Gamepad α)) :
    (h.gamepadIndex = none →
      ((getState g h).1).thrust = discreteThrust h.keys ∧
      ((getState g h).1).yaw = discreteYaw h.keys ∧
      ((getState g h).1).pitch = discretePitch h.keys ∧
      ((getState g h).1).roll = discreteRoll h.keys) ∧
    (∀ gp, g = some gp → h.gamepadIndex.isSome = true →
      ((getState g h).1).thrust = (analogAxes gp).1 ∧
      ((getState g h).1).yaw = (analogAxes gp).2.1 ∧
      ((getState g h).1).pitch = (analogAxes gp).2.2.1 ∧
      ((getState g h).1).roll = (analogAxes gp).2.2.2) ∧
    (g = none → h.gamepadIndex.isSome = true →
      ((getState g h).1).thrust = 0 ∧ ((getState g h).1).yaw = 0 ∧
      ((getState g h).1).pitch = 0 ∧ ((getState g h).1).roll = 0) := by
  refine ⟨fun hgp => ?_, fun gp hg hsome => ?_, fun hg hsome => ?_⟩
  · unfold getState
    rw [hgp]
    exact ⟨rfl, rfl, rfl, rfl⟩
  · subst hg
    unfold getState
    rw [hsome]
    exact ⟨rfl, rfl, rfl, rfl⟩
  · subst hg
    unfold getState
    rw [hsome]
    exact ⟨rfl, rfl, rfl, rfl⟩

/-- C8 amended witness: no gamepad recorded and Space held — the returned
thrust is the discrete keyboard thrust. -/
theorem analog_fallback_and_override_witness :
    hSpace.gamepadIndex = none ∧
    ((getState (none : Option (Gamepad ℚ)) hSpace).1).thrust =
      discreteThrust hSpace.keys :=
  ⟨rfl, ((analog_fallback_and_override hSpace none).1 rfl).1⟩

end DroneFPV
